import Mathlib

/-!
Shallow embedding of the iWashCars booking and payment core
(`src/main/models.py`, `forms.py`, `views.py`, `stripe_utils.py`,
`admin.py`, `tasks.py`, `management/commands/send_reminders.py`).

Conventions:
* times of day are minutes since midnight (`Nat`), calendar dates are day
  indices (`Nat`); a `datetime` is `date * 1440 + time`;
* money is integral cents (`Int` for Payment amounts, matching Django
  `IntegerField`; `Nat` cents for the `Decimal` service price);
* external collaborators (Stripe gateway, e-mail/SMS notifier, address
  validator) are passed in as explicit outcome parameters, matching the
  spec's "specified only at their interface" boundary.
-/

namespace IWashCars

/-- Booking.BOOKING_STATUS_CHOICES (models.py). -/
inductive BookingStatus
  | pending
  | confirmed
  | completed
  | cancelled
  | no_show
deriving DecidableEq, Repr

/-- Payment.PAYMENT_STATUS_CHOICES (models.py). -/
inductive PaymentStatus
  | pending
  | deposit_captured
  | fully_captured
  | deposit_refunded
  | cancelled
  | failed
deriving DecidableEq, Repr

/-- Catalog entry (models.py `Service`): price in cents (the Decimal price
times 100, exact for two decimal places), duration in minutes, deposit in
cents. -/
structure Service where
  price : Nat
  durationMinutes : Nat
  depositAmount : Nat
deriving DecidableEq, Repr

/-- Service.get_end_time: `datetime.combine(today, start) + duration`, then
`.time()`, which wraps modulo 24 hours. -/
def Service.get_end_time (s : Service) (startTime : Nat) : Nat :=
  (startTime + s.durationMinutes) % 1440

/-- Reservation row (models.py `Booking`): the fields the core logic reads
or writes.  `totalPrice = none` models the NULL default. -/
structure Booking where
  id : Nat
  bookingDate : Nat
  bookingTime : Nat
  bookingEndTime : Nat
  status : BookingStatus
  isConfirmed : Bool
  totalPrice : Option Nat
  reminderSent : Bool
  reminderSentAt : Option Nat
deriving DecidableEq, Repr

/-- Booking.save (models.py:120-126): always recomputes the end time from
the service's current duration; sets the price only when the stored value
is falsy in Python (NULL or Decimal zero). -/
def Booking.save (s : Service) (b : Booking) : Booking :=
  { b with
    bookingEndTime := s.get_end_time b.bookingTime
    totalPrice :=
      match b.totalPrice with
      | none => some s.price
      | some 0 => some s.price
      | some p => some p }

/-- Booking.overlaps_with (models.py:128-137): same-date check, then
`(self.start <= other.start < self.end) or (other.start <= self.start <
other.end)` on the stored, unbuffered times. -/
def Booking.overlaps_with (b other : Booking) : Bool :=
  if b.bookingDate ≠ other.bookingDate then false
  else
    decide ((b.bookingTime ≤ other.bookingTime ∧ other.bookingTime < b.bookingEndTime)
      ∨ (other.bookingTime ≤ b.bookingTime ∧ b.bookingTime < other.bookingEndTime))

/-- The slot-marking while-loop of views.booking (views.py:50-55): from the
existing booking's start, step 30 minutes while strictly before the limit. -/
def slotsFrom (current limit : Nat) : List Nat :=
  if current < limit then current :: slotsFrom (current + 30) limit else []
termination_by limit - current
decreasing_by omega

/-- Slots a single existing booking marks unavailable (views.py:44-55): the
loop limit is the stored end time plus the 30-minute commute buffer. -/
def unavailableSlotsOf (b : Booking) : List Nat :=
  slotsFrom b.bookingTime (b.bookingEndTime + 30)

/-- The data of one booking-form submission.  The regex field validations
of clean_email / clean_phone and the external validate_service_area result
(address_validator.py, an excluded collaborator) enter as booleans. -/
structure FormInput where
  emailOk : Bool
  phoneOk : Bool
  addressValid : Bool
  bookingDate : Nat
  bookingTime : Nat
deriving DecidableEq, Repr

/-- The booking_time ChoiceField (forms.py:37-50): half-hour steps from
07:00 to 21:00 inclusive. -/
def timeChoiceOk (t : Nat) : Bool :=
  decide (420 ≤ t ∧ t ≤ 1260 ∧ t % 30 = 0)

/-- BookingForm.is_valid: field validations (email, phone, time choice)
plus BookingForm.clean (forms.py:80-103), which validates only the service
area of the address.  No clean method reads existing bookings. -/
def bookingFormIsValid (f : FormInput) : Bool :=
  f.emailOk && f.phoneOk && timeChoiceOk f.bookingTime && f.addressValid

/-- The fresh model instance a valid form carries before save: model
defaults `status='pending'`, `is_confirmed=False`, NULL price and end
time (end time represented by 0 until save fills it in). -/
def formInitialBooking (f : FormInput) : Booking :=
  { id := 0
    bookingDate := f.bookingDate
    bookingTime := f.bookingTime
    bookingEndTime := 0
    status := .pending
    isConfirmed := false
    totalPrice := none
    reminderSent := false
    reminderSentAt := none }

/-- The POST branch of views.booking (views.py:20-28): if the form is
valid, `form.save()` runs Booking.save and the booking is created;
otherwise nothing is created.  `existing` is the queryset of non-cancelled
bookings the view fetches (views.py:31-35); the creation decision never
consults it — it feeds only the rendered slot map. -/
def bookingView (existing : List Booking) (f : FormInput) (s : Service) :
    Option Booking :=
  if bookingFormIsValid f then some ((formInitialBooking f).save s) else none

/-- Modelled from the spec: the repository has no checkAvailability
function (nothing under src/ implements §4.1's authoritative creation-time
check), so this follows the spec's words — buffered half-open intervals
`[start, end + 30)` of non-cancelled same-date reservations, conflict when
`a.start < b.end ∧ b.start < a.end`; `true` means OK. -/
def spec_checkAvailability (existing : List Booking) (date startTime duration : Nat) :
    Bool :=
  existing.all fun b =>
    !(decide (b.status ≠ .cancelled) && decide (b.bookingDate = date) &&
      decide (startTime < b.bookingEndTime + 30 ∧ b.bookingTime < startTime + duration))

/-- The operational notes the payment code writes (stripe_utils.py); the
claims depend only on which note is set, not on its exact text. -/
inductive NoteTag
  | noNote
  | depositCaptureFailed
  | remainingChargeFailed
  | remainingCharged
  | depositRefunded
  | refundFailed
  | authCancelled
  | cancelAuthFailed
deriving DecidableEq, Repr

/-- Payment row (models.py `Payment`): amounts are Django IntegerFields in
cents; `savedPaymentMethod` models whether `saved_payment_method_id` holds
a token. -/
structure Payment where
  intentId : Nat
  status : PaymentStatus
  depositAmount : Int
  totalAmount : Int
  remainingAmount : Int
  savedPaymentMethod : Bool
  note : NoteTag
deriving DecidableEq, Repr

/-- Payment.can_capture_remaining (models.py:203-205). -/
def Payment.can_capture_remaining (p : Payment) : Bool :=
  decide (p.status = .deposit_captured)

/-- Payment.can_refund_deposit (models.py:207-209). -/
def Payment.can_refund_deposit (p : Payment) : Bool :=
  decide (p.status = .deposit_captured ∨ p.status = .fully_captured)

/-- Payment.can_cancel_authorization (models.py:211-213). -/
def Payment.can_cancel_authorization (p : Payment) : Bool :=
  decide (p.status = .deposit_captured)

/-- Result of one StripePaymentService operation on a payment, together
with its observable effects at the boundaries: how many gateway calls were
made (capture / charge / refund / cancel requests) and how many receipt
notifications were attempted. -/
structure OpOutput where
  payment : Payment
  success : Bool
  requiresAction : Bool
  gatewayCalls : Nat
  receiptAttempts : Nat
deriving DecidableEq, Repr

/-- Outcome of a gateway charge attempt, as distinguished by
charge_saved_payment_method's exception handling. -/
inductive ChargeOutcome
  | ok
  | declined
  | authRequired
deriving DecidableEq, Repr

/-- StripePaymentService.create_payment_intent, success path
(stripe_utils.py:55-64): persists a new pending Payment with
`remaining_amount = total - deposit`. -/
def create_payment_intent (intentId : Nat) (totalCents depositCents : Int) : Payment :=
  { intentId := intentId
    status := .pending
    depositAmount := depositCents
    totalAmount := totalCents
    remainingAmount := totalCents - depositCents
    savedPaymentMethod := false
    note := .noNote }

/-- StripePaymentService.capture_deposit (stripe_utils.py:80-117): no
precondition check of any kind — the gateway capture is always attempted;
on success the status becomes deposit_captured and the payment-method
token is stored, on a gateway error the status becomes failed. -/
def capture_deposit (p : Payment) (gatewayOk : Bool) : OpOutput :=
  if gatewayOk then
    { payment := { p with status := .deposit_captured, savedPaymentMethod := true }
      success := true, requiresAction := false, gatewayCalls := 1, receiptAttempts := 0 }
  else
    { payment := { p with status := .failed, note := .depositCaptureFailed }
      success := false, requiresAction := false, gatewayCalls := 1, receiptAttempts := 0 }

/-- Result of charge_saved_payment_method: success flag, the distinct
requires-action flag, and whether a gateway call was made. -/
structure ChargeResult where
  success : Bool
  requiresAction : Bool
  gatewayCalls : Nat
deriving DecidableEq, Repr

/-- StripePaymentService.charge_saved_payment_method
(stripe_utils.py:119-188): errors out before any gateway call when no
payment method is saved; otherwise makes one off-session charge whose
outcome is success, decline, or authentication-required. -/
def charge_saved_payment_method (p : Payment) (outcome : ChargeOutcome) : ChargeResult :=
  if ¬ p.savedPaymentMethod then
    { success := false, requiresAction := false, gatewayCalls := 0 }
  else
    match outcome with
    | .ok => { success := true, requiresAction := false, gatewayCalls := 1 }
    | .declined => { success := false, requiresAction := false, gatewayCalls := 1 }
    | .authRequired => { success := false, requiresAction := true, gatewayCalls := 1 }

/-- StripePaymentService.capture_remaining_amount (stripe_utils.py:190-257).
The guard rejects every status except deposit_captured, so the
`status == 'fully_captured'` no-op-success branch inside the try block is
kept exactly where the source has it: after the guard, where it is
unreachable.  On charge success the status becomes fully_captured and one
completion-receipt notification is attempted (its own failure is caught);
on charge failure only the notes change. -/
def capture_remaining_amount (p : Payment) (outcome : ChargeOutcome) : OpOutput :=
  if ¬ p.can_capture_remaining then
    { payment := p, success := false, requiresAction := false
      gatewayCalls := 0, receiptAttempts := 0 }
  else if p.status = .fully_captured then
    { payment := p, success := true, requiresAction := false
      gatewayCalls := 0, receiptAttempts := 0 }
  else
    let c := charge_saved_payment_method p outcome
    if ¬ c.success then
      { payment := { p with note := .remainingChargeFailed }
        success := false, requiresAction := c.requiresAction
        gatewayCalls := c.gatewayCalls, receiptAttempts := 0 }
    else
      { payment := { p with status := .fully_captured, note := .remainingCharged }
        success := true, requiresAction := false
        gatewayCalls := c.gatewayCalls, receiptAttempts := 1 }

/-- StripePaymentService.refund_deposit (stripe_utils.py:259-313): guarded
by can_refund_deposit before the gateway refund; on success the status
becomes deposit_refunded and a refund receipt is attempted. -/
def refund_deposit (p : Payment) (gatewayOk : Bool) : OpOutput :=
  if ¬ p.can_refund_deposit then
    { payment := p, success := false, requiresAction := false
      gatewayCalls := 0, receiptAttempts := 0 }
  else if gatewayOk then
    { payment := { p with status := .deposit_refunded, note := .depositRefunded }
      success := true, requiresAction := false, gatewayCalls := 1, receiptAttempts := 1 }
  else
    { payment := { p with note := .refundFailed }
      success := false, requiresAction := false, gatewayCalls := 1, receiptAttempts := 0 }

/-- StripePaymentService.cancel_authorization (stripe_utils.py:315-347):
guarded by can_cancel_authorization before the gateway cancel. -/
def cancel_authorization (p : Payment) (gatewayOk : Bool) : OpOutput :=
  if ¬ p.can_cancel_authorization then
    { payment := p, success := false, requiresAction := false
      gatewayCalls := 0, receiptAttempts := 0 }
  else if gatewayOk then
    { payment := { p with status := .cancelled, note := .authCancelled }
      success := true, requiresAction := false, gatewayCalls := 1, receiptAttempts := 0 }
  else
    { payment := { p with note := .cancelAuthFailed }
      success := false, requiresAction := false, gatewayCalls := 1, receiptAttempts := 0 }

/-- A Stripe webhook event as read by views.stripe_webhook: its type and
the payment-intent id it carries. -/
inductive StripeEvent
  | succeeded (intentId : Nat)
  | payment_failed (intentId : Nat)
  | other
deriving DecidableEq, Repr

/-- How views.stripe_webhook (views.py:181-201) updates one Payment row:
a succeeded event advances only a pending payment to deposit_captured; a
payment_failed event sets status failed unconditionally; ids that do not
match are untouched. -/
def webhookUpdatePayment (ev : StripeEvent) (p : Payment) : Payment :=
  match ev with
  | .succeeded i =>
      if p.intentId = i ∧ p.status = .pending then { p with status := .deposit_captured } else p
  | .payment_failed i =>
      if p.intentId = i then { p with status := .failed } else p
  | .other => p

/-- views.stripe_webhook (views.py:163-203): invalid signatures are
rejected before touching any Payment; otherwise the event is applied to
the matching payment (intent ids are unique, so a map is faithful).
Unknown intent ids match nothing and are ignored. -/
def stripe_webhook (sigValid : Bool) (ev : StripeEvent) (ps : List Payment) :
    List Payment :=
  if sigValid then ps.map (webhookUpdatePayment ev) else ps

/-- One payment-mutating step of the system, with its external outcomes. -/
inductive PaymentOp
  | captureDeposit (gatewayOk : Bool)
  | captureRemaining (outcome : ChargeOutcome)
  | refundDeposit (gatewayOk : Bool)
  | cancelAuthorization (gatewayOk : Bool)
  | webhook (sigValid : Bool) (ev : StripeEvent)
deriving DecidableEq, Repr

/-- Apply one payment operation to a payment's row. -/
def applyPaymentOp (op : PaymentOp) (p : Payment) : Payment :=
  match op with
  | .captureDeposit ok => (capture_deposit p ok).payment
  | .captureRemaining oc => (capture_remaining_amount p oc).payment
  | .refundDeposit ok => (refund_deposit p ok).payment
  | .cancelAuthorization ok => (cancel_authorization p ok).payment
  | .webhook sv ev => if sv then webhookUpdatePayment ev p else p

/-- Apply a whole lifecycle of payment operations in order. -/
def applyPaymentOps (ops : List PaymentOp) (p : Payment) : Payment :=
  ops.foldl (fun q op => applyPaymentOp op q) p

/-- views.confirm_payment (views.py:126-160): runs capture_deposit; when
it reports success, sets `is_confirmed = True` and `status = 'confirmed'`
on the owning booking with no guard on its current status, and saves it
(which re-runs Booking.save against the booking's service). -/
def confirm_payment (s : Service) (p : Payment) (b : Booking) (gatewayOk : Bool) :
    Payment × Booking × Bool :=
  let r := capture_deposit p gatewayOk
  if r.success then
    (r.payment, Booking.save s { b with isConfirmed := true, status := .confirmed }, true)
  else
    (r.payment, b, false)

/-- How BookingAdmin.complete_service_and_finalize_payment reports one
booking of the queryset (admin.py:142-245). -/
inductive CompleteOutcome
  | completedOk
  | alreadyCompleted
  | notCompletable
  | paymentFailed
  | noPayment
deriving DecidableEq, Repr

/-- BookingAdmin.complete_service_and_finalize_payment for one booking
(admin.py:148-217): skip if already completed; reject statuses other than
pending/confirmed; then capture the remaining balance when the payment
allows it (treating an already fully_captured payment as success), and
only mark the booking completed when that reported success. -/
def complete_service_and_finalize_payment (s : Service) (b : Booking)
    (pay : Option Payment) (outcome : ChargeOutcome) :
    Booking × Option Payment × CompleteOutcome :=
  if b.status = .completed then (b, pay, .alreadyCompleted)
  else if ¬ (b.status = .pending ∨ b.status = .confirmed) then (b, pay, .notCompletable)
  else
    match pay with
    | none => (b, none, .noPayment)
    | some p =>
      if p.can_capture_remaining then
        let r := capture_remaining_amount p outcome
        if ¬ r.success then (b, some r.payment, .paymentFailed)
        else (Booking.save s { b with status := .completed }, some r.payment, .completedOk)
      else if p.status = .fully_captured then
        (Booking.save s { b with status := .completed }, some p, .completedOk)
      else
        (b, some p, .paymentFailed)

/-- BookingAdmin.mark_completed (admin.py:323-330): a queryset `update`
that sets status completed on every pending or confirmed booking, with no
payment check and without running Booking.save. -/
def mark_completed (b : Booking) : Booking :=
  if b.status = .pending ∨ b.status = .confirmed then { b with status := .completed } else b

/-- One pass of tasks.send_booking_reminders (tasks.py:10-47) over a single
booking.  The queryset filter is `is_confirmed=True, reminder_sent=False,
booking_date=(now+25min).date()`; inside the loop the reminder is sent only
when the booking's datetime lies in `[now+25, now+35]` minutes, and
`reminder_sent`/`reminder_sent_at` are written only when the notification
reported success.  `sendOk` is the notifier boundary, keyed by booking id;
the returned Bool records whether a send was attempted for this booking. -/
def sweepBooking (now : Nat) (sendOk : Nat → Bool) (b : Booking) : Booking × Bool :=
  if b.isConfirmed ∧ b.reminderSent = false ∧ b.bookingDate = (now + 25) / 1440 then
    let bdt := b.bookingDate * 1440 + b.bookingTime
    if now + 25 ≤ bdt ∧ bdt ≤ now + 35 then
      if sendOk b.id then
        ({ b with reminderSent := true, reminderSentAt := some now }, true)
      else (b, true)
    else (b, false)
  else (b, false)

/-- tasks.send_booking_reminders over the whole table: every booking goes
through the filter-and-send pass independently. -/
def send_booking_reminders (now : Nat) (sendOk : Nat → Bool) (bs : List Booking) :
    List (Booking × Bool) :=
  bs.map (sweepBooking now sendOk)

/-! ### Concrete instances used by the counterexamples and witnesses -/

/-- The spec's running example: a confirmed 60-minute reservation at 10:00
(600 minutes) on a day modelled as index 0, already saved (end 11:00). -/
def exampleExisting : Booking :=
  { id := 1, bookingDate := 0, bookingTime := 600, bookingEndTime := 660
    status := .confirmed, isConfirmed := true, totalPrice := some 15000
    reminderSent := false, reminderSentAt := none }

/-- A 60-minute, $150 offering with the $25 deposit. -/
def exampleService60 : Service :=
  { price := 15000, durationMinutes := 60, depositAmount := 2500 }

/-- The same offering after a catalog edit: 90 minutes, $200. -/
def exampleService90 : Service :=
  { price := 20000, durationMinutes := 90, depositAmount := 2500 }

/-- A fully valid form submission for 10:30 on day 0 — overlapping
`exampleExisting` outright. -/
def conflictingForm : FormInput :=
  { emailOk := true, phoneOk := true, addressValid := true
    bookingDate := 0, bookingTime := 630 }

/-- Candidate reservation 11:15–12:15 on day 0 (saved form of the spec's
rejected example). -/
def candidate1115 : Booking :=
  { id := 2, bookingDate := 0, bookingTime := 675, bookingEndTime := 735
    status := .pending, isConfirmed := false, totalPrice := some 15000
    reminderSent := false, reminderSentAt := none }

/-- Candidate reservation 11:30–12:30 on day 0 (the spec's accepted
example). -/
def candidate1130 : Booking :=
  { id := 3, bookingDate := 0, bookingTime := 690, bookingEndTime := 750
    status := .pending, isConfirmed := false, totalPrice := some 15000
    reminderSent := false, reminderSentAt := none }

/-! ### C1 — creation vs. the availability check -/

/-- C1, as stated, is false on the code: with a non-cancelled reservation
10:00–11:00 on the same day, a valid form for 10:30 still creates a
pending booking even though the availability check (buffered intervals)
reports a conflict — BookingForm.clean validates only the address and the
POST branch of views.booking saves any valid form. -/
theorem C1_counterexample :
    spec_checkAvailability [exampleExisting] 0 630 60 = false ∧
    (bookingView [exampleExisting] conflictingForm exampleService60).isSome = true ∧
    (bookingView [exampleExisting] conflictingForm exampleService60).map Booking.status
      = some BookingStatus.pending := by
  decide

/-- C1 (amended): reservation creation never consults the existing
reservations — its outcome is decided by form validation alone (field
validity plus the external service-area check), and a successful creation
always yields a pending reservation.  The double-booking invariant is not
enforced at creation time. -/
theorem C1_creation_ignores_existing :
    ∀ (existing other : List Booking) (f : FormInput) (s : Service),
      bookingView existing f s = bookingView other f s ∧
      (bookingView existing f s).isSome = bookingFormIsValid f ∧
      (∀ b, bookingView existing f s = some b → b.status = BookingStatus.pending) := by
  intro existing other f s
  refine ⟨rfl, ?_, ?_⟩
  · unfold bookingView
    split <;> simp_all
  · intro b h
    unfold bookingView at h
    split at h
    · cases h
      rfl
    · cases h

/-- Witness for C1: the creation outcome with the conflicting reservation
present equals the outcome with no reservations at all. -/
theorem C1_creation_ignores_existing_witness :
    bookingView [exampleExisting] conflictingForm exampleService60 =
      bookingView [] conflictingForm exampleService60 :=
  (C1_creation_ignores_existing [exampleExisting] [] conflictingForm exampleService60).1

/-! ### C2 — the shape of the conflict test -/

/-- C2, as stated, is false on the code: with the existing 10:00–11:00
reservation, the candidate starting 11:15 is NOT rejected — overlaps_with
(which uses the raw, unbuffered end time) sees no conflict in either
direction, and the buffered slot map marks only the grid times 10:00,
10:30 and 11:00, not 11:15 — even though the claim's buffered half-open
intervals [600, 690) and [675, 735) do intersect. -/
theorem C2_counterexample :
    Booking.overlaps_with exampleExisting candidate1115 = false ∧
    Booking.overlaps_with candidate1115 exampleExisting = false ∧
    unavailableSlotsOf exampleExisting = [600, 630, 660] ∧
    decide (675 ∈ unavailableSlotsOf exampleExisting) = false ∧
    decide (candidate1115.bookingTime < exampleExisting.bookingEndTime + 30 ∧
      exampleExisting.bookingTime < candidate1115.bookingEndTime) = true := by
  have hslots : unavailableSlotsOf exampleExisting = [600, 630, 660] := by
    simp [unavailableSlotsOf, exampleExisting, slotsFrom]
  refine ⟨by decide, by decide, hslots, ?_, by decide⟩
  rw [hslots]
  decide

/-- C2 (amended): Booking.overlaps_with declares a conflict exactly when
the unbuffered half-open same-date intervals [start, end) intersect
(`a.start < b.end ∧ b.start < a.end`), in continuous time; the 30-minute
buffer exists only in the UI slot enumeration, which snaps to 30-minute
steps from the existing start while strictly below end + 30; with the
existing 10:00–11:00 reservation both the 11:15 and the 11:30 candidates
are conflict-free under overlaps_with. -/
theorem C2_overlap_semantics :
    (∀ a b : Booking, a.bookingDate = b.bookingDate →
      a.bookingTime < a.bookingEndTime → b.bookingTime < b.bookingEndTime →
      (Booking.overlaps_with a b = true ↔
        (a.bookingTime < b.bookingEndTime ∧ b.bookingTime < a.bookingEndTime))) ∧
    unavailableSlotsOf exampleExisting = [600, 630, 660] ∧
    Booking.overlaps_with exampleExisting candidate1115 = false ∧
    Booking.overlaps_with exampleExisting candidate1130 = false := by
  refine ⟨?_, ?_, by decide, by decide⟩
  · intro a b hd h1 h2
    simp only [Booking.overlaps_with, hd, ne_eq, not_true_eq_false, if_false,
      decide_eq_true_eq]
    omega
  · simp [unavailableSlotsOf, exampleExisting, slotsFrom]

/-- Witness for C2: the characterisation applied to the concrete existing
reservation and the 11:15 candidate. -/
theorem C2_overlap_semantics_witness :
    Booking.overlaps_with exampleExisting candidate1115 = true ↔
      (exampleExisting.bookingTime < candidate1115.bookingEndTime ∧
        candidate1115.bookingTime < exampleExisting.bookingEndTime) :=
  C2_overlap_semantics.1 exampleExisting candidate1115 (by decide) (by decide) (by decide)

/-! ### C3 — the failed-event reconciliation -/

/-- A payment whose lifecycle finished successfully. -/
def pFullyCaptured : Payment :=
  { intentId := 7, status := .fully_captured, depositAmount := 2500
    totalAmount := 7500, remainingAmount := 5000
    savedPaymentMethod := true, note := .remainingCharged }

/-- A payment whose deposit was refunded. -/
def pDepositRefunded : Payment :=
  { intentId := 9, status := .deposit_refunded, depositAmount := 2500
    totalAmount := 7500, remainingAmount := 5000
    savedPaymentMethod := true, note := .depositRefunded }

/-- C3, as stated, is false on the code: the payment_failed branch of
views.stripe_webhook assigns status failed with no guard, so a signed
failed event for a known intent id overwrites both a fully_captured and a
deposit_refunded payment. -/
theorem C3_counterexample :
    (stripe_webhook true (StripeEvent.payment_failed 7) [pFullyCaptured]).map Payment.status
      = [PaymentStatus.failed] ∧
    (stripe_webhook true (StripeEvent.payment_failed 9) [pDepositRefunded]).map Payment.status
      = [PaymentStatus.failed] := by
  decide

/-- C3 (amended): a signature-verified failed event for a known
payment-intent id sets the matching Payment's status to failed from every
prior state, terminal success states included. -/
theorem C3_failed_event_unconditional :
    ∀ p : Payment,
      stripe_webhook true (StripeEvent.payment_failed p.intentId) [p] =
        [{ p with status := PaymentStatus.failed }] := by
  intro p
  simp [stripe_webhook, webhookUpdatePayment]

/-! ### C4 — idempotence of captureRemaining -/

/-- A payment right after a successful deposit capture, with the saved
payment-method token present. -/
def pDepositCaptured : Payment :=
  { intentId := 3, status := .deposit_captured, depositAmount := 2500
    totalAmount := 7500, remainingAmount := 5000
    savedPaymentMethod := true, note := .noNote }

/-- C4: the first capture_remaining_amount call succeeds and moves the
payment to fully_captured with one gateway charge and one receipt attempt,
but the second call is rejected by the can_capture_remaining guard (which
admits only deposit_captured) and returns success = False — the
`status == 'fully_captured'` no-op-success branch inside the function is
unreachable.  No second gateway charge and no second receipt occur, and
the payment is left unchanged. -/
theorem C4_second_call_rejected :
    (capture_remaining_amount pDepositCaptured ChargeOutcome.ok).success = true ∧
    (capture_remaining_amount pDepositCaptured ChargeOutcome.ok).payment.status
      = PaymentStatus.fully_captured ∧
    (capture_remaining_amount pDepositCaptured ChargeOutcome.ok).gatewayCalls = 1 ∧
    (capture_remaining_amount pDepositCaptured ChargeOutcome.ok).receiptAttempts = 1 ∧
    (capture_remaining_amount
        (capture_remaining_amount pDepositCaptured ChargeOutcome.ok).payment
        ChargeOutcome.ok).success = false ∧
    (capture_remaining_amount
        (capture_remaining_amount pDepositCaptured ChargeOutcome.ok).payment
        ChargeOutcome.ok).gatewayCalls = 0 ∧
    (capture_remaining_amount
        (capture_remaining_amount pDepositCaptured ChargeOutcome.ok).payment
        ChargeOutcome.ok).receiptAttempts = 0 ∧
    (capture_remaining_amount
        (capture_remaining_amount pDepositCaptured ChargeOutcome.ok).payment
        ChargeOutcome.ok).payment
      = (capture_remaining_amount pDepositCaptured ChargeOutcome.ok).payment := by
  decide

/-! ### C5 — precondition guards before gateway calls -/

/-- C5, as stated, is false on the code: capture_deposit has no
precondition at all — on a payment already fully_captured it still makes
the gateway capture call, reports success, and rewrites the state. -/
theorem C5_counterexample :
    pFullyCaptured.status ≠ PaymentStatus.pending ∧
    (capture_deposit pFullyCaptured true).gatewayCalls = 1 ∧
    (capture_deposit pFullyCaptured true).success = true ∧
    (capture_deposit pFullyCaptured true).payment ≠ pFullyCaptured := by
  decide

/-- C5 (amended): capture_remaining_amount, refund_deposit and
cancel_authorization check their canX predicate before any external call
and, when it fails, return a reported error with zero gateway calls, zero
receipt attempts and an unchanged Payment; capture_deposit alone performs
its gateway call unconditionally, whatever the payment's status. -/
theorem C5_guard_semantics :
    ∀ (p : Payment) (oc : ChargeOutcome) (ok : Bool),
      (p.can_capture_remaining = false →
        capture_remaining_amount p oc =
          { payment := p, success := false, requiresAction := false
            gatewayCalls := 0, receiptAttempts := 0 }) ∧
      (p.can_refund_deposit = false →
        refund_deposit p ok =
          { payment := p, success := false, requiresAction := false
            gatewayCalls := 0, receiptAttempts := 0 }) ∧
      (p.can_cancel_authorization = false →
        cancel_authorization p ok =
          { payment := p, success := false, requiresAction := false
            gatewayCalls := 0, receiptAttempts := 0 }) ∧
      (capture_deposit p ok).gatewayCalls = 1 := by
  intro p oc ok
  refine ⟨fun h => ?_, fun h => ?_, fun h => ?_, ?_⟩
  · simp [capture_remaining_amount, h]
  · simp [refund_deposit, h]
  · simp [cancel_authorization, h]
  · cases ok <;> rfl

/-- A freshly created payment, still pending. -/
def pPending : Payment := create_payment_intent 1 7500 2500

/-- Witness for C5: refund_deposit on a pending Payment is rejected with
no gateway call and no state change — the spec's own example. -/
theorem C5_guard_semantics_witness :
    refund_deposit pPending true =
      { payment := pPending, success := false, requiresAction := false
        gatewayCalls := 0, receiptAttempts := 0 } :=
  (C5_guard_semantics pPending ChargeOutcome.ok true).2.1 (by decide)

/-! ### C6 — the remaining-amount invariant -/

/-- No payment operation touches the three amount fields. -/
theorem applyPaymentOp_amounts (op : PaymentOp) (p : Payment) :
    (applyPaymentOp op p).depositAmount = p.depositAmount ∧
    (applyPaymentOp op p).totalAmount = p.totalAmount ∧
    (applyPaymentOp op p).remainingAmount = p.remainingAmount := by
  cases op with
  | captureDeposit ok =>
      cases ok <;> simp [applyPaymentOp, capture_deposit]
  | captureRemaining oc =>
      simp only [applyPaymentOp, capture_remaining_amount, charge_saved_payment_method]
      split_ifs <;> simp_all
  | refundDeposit ok =>
      simp only [applyPaymentOp, refund_deposit]
      split_ifs <;> simp
  | cancelAuthorization ok =>
      simp only [applyPaymentOp, cancel_authorization]
      split_ifs <;> simp
  | webhook sv ev =>
      cases ev <;> simp only [applyPaymentOp, webhookUpdatePayment] <;> split_ifs <;> simp

/-- The amount invariant survives any sequence of operations. -/
theorem applyPaymentOps_amounts (ops : List PaymentOp) (p : Payment) :
    (applyPaymentOps ops p).depositAmount = p.depositAmount ∧
    (applyPaymentOps ops p).totalAmount = p.totalAmount ∧
    (applyPaymentOps ops p).remainingAmount = p.remainingAmount := by
  induction ops generalizing p with
  | nil => exact ⟨rfl, rfl, rfl⟩
  | cons op rest ih =>
      have h1 := applyPaymentOp_amounts op p
      have h2 := ih (applyPaymentOp op p)
      simp only [applyPaymentOps, List.foldl] at *
      exact ⟨h2.1.trans h1.1, h2.2.1.trans h1.2.1, h2.2.2.trans h1.2.2⟩

/-- C6: a payment created by create_payment_intent satisfies
`remaining = total - deposit` after every sequence of lifecycle
operations; no operation ever changes remaining_amount; and the concrete
example total 7500 / deposit 2500 yields remaining 5000. -/
theorem C6_remaining_invariant :
    (∀ (ops : List PaymentOp) (i : Nat) (t d : Int),
      (applyPaymentOps ops (create_payment_intent i t d)).remainingAmount =
        (applyPaymentOps ops (create_payment_intent i t d)).totalAmount -
          (applyPaymentOps ops (create_payment_intent i t d)).depositAmount) ∧
    (∀ (op : PaymentOp) (p : Payment),
      (applyPaymentOp op p).remainingAmount = p.remainingAmount) ∧
    (create_payment_intent 0 7500 2500).remainingAmount = 5000 := by
  refine ⟨?_, fun op p => (applyPaymentOp_amounts op p).2.2, by decide⟩
  intro ops i t d
  have h := applyPaymentOps_amounts ops (create_payment_intent i t d)
  rw [h.1, h.2.1, h.2.2]
  rfl

/-! ### C7 — completion and the final capture -/

/-- When capture_remaining_amount reports success, the returned payment is
fully captured. -/
theorem capture_remaining_success_status (p : Payment) (oc : ChargeOutcome)
    (h : (capture_remaining_amount p oc).success = true) :
    (capture_remaining_amount p oc).payment.status = PaymentStatus.fully_captured := by
  by_cases hg : p.can_capture_remaining = true
  · by_cases hf : p.status = PaymentStatus.fully_captured
    · simp [capture_remaining_amount, hg, hf]
    · by_cases hc : (charge_saved_payment_method p oc).success = false
      · simp [capture_remaining_amount, hg, hf, hc] at h
      · simp [capture_remaining_amount, hg, hf, hc]
  · simp [capture_remaining_amount, hg] at h

/-- A booking still awaiting confirmation. -/
def bPendingBooking : Booking :=
  { id := 5, bookingDate := 0, bookingTime := 600, bookingEndTime := 660
    status := .pending, isConfirmed := false, totalPrice := some 15000
    reminderSent := false, reminderSentAt := none }

/-- C7, as stated, is false on the code: the separate mark_completed admin
action advances any pending or confirmed booking to completed without
consulting its payment — here a booking whose payment is still pending
(neither fully captured nor even capturable) is marked completed. -/
theorem C7_counterexample :
    (mark_completed bPendingBooking).status = BookingStatus.completed ∧
    pPending.status ≠ PaymentStatus.fully_captured ∧
    pPending.status ≠ PaymentStatus.deposit_captured := by
  decide

/-- C7 (amended): inside complete_service_and_finalize_payment a
not-yet-completed booking advances to completed only when the resulting
payment is fully captured, and a failed remaining-balance capture leaves
the booking unchanged; the mark_completed action, however, completes every
pending or confirmed booking unconditionally, with no payment check. -/
theorem C7_completion_semantics :
    ∀ (s : Service) (b : Booking) (p : Payment) (oc : ChargeOutcome),
      (b.status ≠ BookingStatus.completed →
        (complete_service_and_finalize_payment s b (some p) oc).1.status = BookingStatus.completed →
        ∃ q, (complete_service_and_finalize_payment s b (some p) oc).2.1 = some q ∧
          q.status = PaymentStatus.fully_captured) ∧
      (p.can_capture_remaining = true →
        (capture_remaining_amount p oc).success = false →
        (complete_service_and_finalize_payment s b (some p) oc).1 = b) ∧
      (∀ c : Booking,
        c.status = BookingStatus.pending ∨ c.status = BookingStatus.confirmed →
        (mark_completed c).status = BookingStatus.completed) := by
  intro s b p oc
  refine ⟨?_, ?_, ?_⟩
  · intro hb hc
    simp only [complete_service_and_finalize_payment] at hc ⊢
    split_ifs at hc ⊢ with h1 h2 h3 h4 h5
    all_goals first
      | exact absurd hc hb
      | exact ⟨(capture_remaining_amount p oc).payment, rfl,
          capture_remaining_success_status p oc (by simpa using h4)⟩
      | exact ⟨p, rfl, by simp_all⟩
  · intro hcan hfail
    simp only [complete_service_and_finalize_payment]
    split_ifs with h1 h2 h3 <;> simp_all
  · intro c hc
    rcases hc with h | h <;> simp [mark_completed, h]

/-- A deposit-captured payment with no saved payment-method token, so the
off-session charge errors out before reaching the gateway. -/
def pNoSavedMethod : Payment :=
  { intentId := 4, status := .deposit_captured, depositAmount := 2500
    totalAmount := 7500, remainingAmount := 5000
    savedPaymentMethod := false, note := .noNote }

/-- Witness for C7: a confirmed booking whose remaining-balance capture
fails stays exactly as it was. -/
theorem C7_completion_semantics_witness :
    (complete_service_and_finalize_payment exampleService60 exampleExisting
      (some pNoSavedMethod) ChargeOutcome.ok).1 = exampleExisting :=
  (C7_completion_semantics exampleService60 exampleExisting pNoSavedMethod
    ChargeOutcome.ok).2.1 (by decide) (by decide)

/-! ### C8 — write-once end time and price -/

/-- The booking created at 10:00 against the 60-minute offering, as the
form's save leaves it: end 11:00, price frozen at the creation-time
catalog price. -/
def bookedAt1000 : Booking :=
  Booking.save exampleService60 (formInitialBooking
    { emailOk := true, phoneOk := true, addressValid := true
      bookingDate := 0, bookingTime := 600 })

/-- C8, as stated, is false on the code: Booking.save recomputes the end
time from the service's CURRENT duration on every save, so after the
catalog entry grows from 60 to 90 minutes, re-saving the existing booking
moves its stored end time from 11:00 to 11:30 (the price, being truthy,
is untouched). -/
theorem C8_counterexample :
    bookedAt1000.bookingEndTime = 660 ∧
    (Booking.save exampleService90 bookedAt1000).bookingEndTime = 690 ∧
    (Booking.save exampleService90 bookedAt1000).bookingEndTime ≠ bookedAt1000.bookingEndTime ∧
    (Booking.save exampleService90 bookedAt1000).totalPrice = bookedAt1000.totalPrice := by
  decide

/-- C8 (amended): the total price is write-once — once it holds a nonzero
value no later save changes it, even against a changed catalog entry — but
the end time is not: every save recomputes it as start plus the service's
current duration (mod 24h).  Saves touch nothing else. -/
theorem C8_price_write_once_end_recomputed :
    ∀ (s : Service) (b : Booking) (p : Nat),
      (b.totalPrice = some p → p ≠ 0 → (Booking.save s b).totalPrice = some p) ∧
      (Booking.save s b).bookingEndTime = (b.bookingTime + s.durationMinutes) % 1440 ∧
      (Booking.save s b).status = b.status ∧
      (Booking.save s b).bookingTime = b.bookingTime ∧
      (Booking.save s b).bookingDate = b.bookingDate := by
  intro s b p
  refine ⟨?_, rfl, rfl, rfl, rfl⟩
  intro h hp
  cases p with
  | zero => exact absurd rfl hp
  | succ n => simp [Booking.save, h]

/-- Witness for C8: re-saving the 10:00 booking against the edited catalog
entry keeps its $150.00 price. -/
theorem C8_price_write_once_end_recomputed_witness :
    (Booking.save exampleService90 bookedAt1000).totalPrice = some 15000 :=
  (C8_price_write_once_end_recomputed exampleService90 bookedAt1000 15000).1
    (by decide) (by decide)

/-! ### C9 — the reminder sweep -/

/-- A booking whose reminder flag is already set never matches the sweep's
filter: it is returned untouched and no send is attempted. -/
theorem sweepBooking_sent_noop (now : Nat) (sendOk : Nat → Bool) (b : Booking)
    (h : b.reminderSent = true) : sweepBooking now sendOk b = (b, false) := by
  simp [sweepBooking, h]

/-- C9: the sweep writes reminder_sent (and the timestamp) only after the
notifier reported success; a failed send leaves the booking unchanged, so
the next sweep retries it; and once the flag is set, any later sweep —
whatever its time or notifier — attempts no further send. -/
theorem C9_reminder_once :
    ∀ (now : Nat) (sendOk : Nat → Bool) (b : Booking),
      (b.reminderSent = true → sweepBooking now sendOk b = (b, false)) ∧
      (sendOk b.id = false → (sweepBooking now sendOk b).1 = b) ∧
      ((sweepBooking now sendOk b).1.reminderSent = true →
        b.reminderSent = true ∨
          ((sweepBooking now sendOk b).2 = true ∧ sendOk b.id = true ∧
            (sweepBooking now sendOk b).1.reminderSentAt = some now)) ∧
      (∀ (later : Nat) (sendOk2 : Nat → Bool),
        (sweepBooking now sendOk b).1.reminderSent = true →
        sweepBooking later sendOk2 (sweepBooking now sendOk b).1 =
          ((sweepBooking now sendOk b).1, false)) := by
  intro now sendOk b
  refine ⟨sweepBooking_sent_noop now sendOk b, ?_, ?_, ?_⟩
  · intro h
    simp only [sweepBooking]
    split_ifs <;> simp_all
  · intro h
    simp only [sweepBooking] at h ⊢
    split_ifs at h ⊢ <;> simp_all
  · intro later sendOk2 h
    exact sweepBooking_sent_noop later sendOk2 _ h

/-- A confirmed booking already reminded. -/
def bAlreadyReminded : Booking :=
  { id := 8, bookingDate := 0, bookingTime := 600, bookingEndTime := 660
    status := .confirmed, isConfirmed := true, totalPrice := some 15000
    reminderSent := true, reminderSentAt := some 100 }

/-- Witness for C9: a sweep running again inside the lead-time window of
an already-reminded booking sends nothing and changes nothing. -/
theorem C9_reminder_once_witness :
    sweepBooking 540 (fun _ => true) bAlreadyReminded = (bAlreadyReminded, false) :=
  (C9_reminder_once 540 (fun _ => true) bAlreadyReminded).1 (by decide)

/-! ### C10 — confirm-payment overwrites any booking status -/

/-- C10: whenever the deposit capture reports success (which, the gateway
willing, it does from any payment state — capture_deposit has no guard),
views.confirm_payment sets the owning booking to confirmed with
is_confirmed true, whatever status the booking had before, terminal states
included. -/
theorem C10_confirm_unconditional :
    ∀ (s : Service) (p : Payment) (b : Booking),
      (confirm_payment s p b true).2.1.status = BookingStatus.confirmed ∧
      (confirm_payment s p b true).2.1.isConfirmed = true ∧
      (confirm_payment s p b true).2.2 = true ∧
      (confirm_payment s p b true).1.status = PaymentStatus.deposit_captured := by
  intro s p b
  exact ⟨rfl, rfl, rfl, rfl⟩

end IWashCars
